import Mathlib

/-!
Shallow embedding of the financial projection engine of the munus-moneyapp
repository (src/lib/income-calculator.ts together with the investment
calculator module).  Machine numbers are modelled as exact rationals;
JavaScript `Math.round` is modelled as `fun q => ⌊q + 1/2⌋` (round half
toward positive infinity), which agrees with `Math.round` on all finite
inputs.  The fallible final-element access `yearlyData[yearlyData.length-1]`
is modelled by `Option`.
-/

namespace Munus

/-- JavaScript `Math.round`: round half toward positive infinity. -/
def jround (q : ℚ) : ℤ := ⌊q + 1/2⌋

/-- Input record of `calculateInvestment` (interface `SimulationParams`). -/
@[ext]
structure SimulationParams where
  monthlyAmount : ℚ
  years : ℚ
  annualReturn : ℚ
  fees : ℚ := 0
  taxRate : ℚ := 0
  deriving DecidableEq

/-- One entry of the per-year breakdown (interface `YearlyData`).
All monetary fields are the values recorded after `Math.round`. -/
@[ext]
structure YearlyData where
  year : ℕ
  principal : ℤ
  earnings : ℤ
  total : ℤ
  yearlyEarnings : ℤ
  deriving DecidableEq

/-- Output record of `calculateInvestment` (interface `SimulationResult`). -/
@[ext]
structure SimulationResult where
  finalAmount : ℤ
  totalPrincipal : ℤ
  totalEarnings : ℤ
  yearlyData : List YearlyData
  deriving DecidableEq

/-- Output record of `calculateRiskScenarios` (interface `RiskScenario`). -/
structure RiskScenario where
  optimistic : SimulationResult
  base : SimulationResult
  pessimistic : SimulationResult
  deriving DecidableEq

/-- The inner month loop of `calculateInvestment`:
`for (month = 1; month <= k; month++) t = (t + m) * (1 + r)`. -/
def monthsLoop (m r : ℚ) : ℕ → ℚ → ℚ
  | 0, t => t
  | k+1, t => monthsLoop m r k ((t + m) * (1 + r))

/-- `effectiveReturn = (annualReturn - fees) / 100` from the source. -/
def effectiveReturn (p : SimulationParams) : ℚ := (p.annualReturn - p.fees) / 100

/-- `monthlyReturn = effectiveReturn / 12` from the source. -/
def monthlyReturn (p : SimulationParams) : ℚ := effectiveReturn p / 12

/-- Trip count of the JavaScript loop `for (year = 1; year <= years; year++)`
when `years` is an arbitrary finite number: the loop body runs once for each
integer `year` with `1 ≤ year ≤ years`, i.e. `max 0 ⌊years⌋` times. -/
def numYears (years : ℚ) : ℕ := ⌊years⌋.toNat

/-- The outer year loop of `calculateInvestment`.  Arguments: remaining
iterations, current value of `year`, running unrounded `currentPrincipal`
and `currentTotal`.  Each iteration pushes one rounded `YearlyData` record. -/
def investLoop (m r : ℚ) : ℕ → ℕ → ℚ → ℚ → List YearlyData
  | 0, _, _, _ => []
  | k+1, y, p, t =>
    { year := y
      principal := jround (p + m * 12)
      earnings := jround (monthsLoop m r 12 t - (p + m * 12))
      total := jround (monthsLoop m r 12 t)
      yearlyEarnings := jround (monthsLoop m r 12 t - t - m * 12) }
      :: investLoop m r k (y + 1) (p + m * 12) (monthsLoop m r 12 t)

/-- `calculateInvestment` from the source.  The source ends with
`const finalData = yearlyData[yearlyData.length - 1]` and dereferences
`finalData` without any emptiness check; the `Option` result records
whether that access is in bounds (`none` iff the year loop ran 0 times). -/
def calculateInvestment (p : SimulationParams) : Option SimulationResult :=
  match (investLoop p.monthlyAmount (monthlyReturn p) (numYears p.years) 1 0 0).getLast? with
  | none => none
  | some finalData =>
    some { finalAmount := finalData.total
           totalPrincipal := finalData.principal
           totalEarnings := finalData.earnings
           yearlyData := investLoop p.monthlyAmount (monthlyReturn p) (numYears p.years) 1 0 0 }

/-- `calculateRiskScenarios` from the source: three independent projections
with the annual return shifted by the fixed variance 2, the pessimistic
rate clamped at 0 and the optimistic rate unclamped. -/
def calculateRiskScenarios (p : SimulationParams) : Option RiskScenario :=
  match calculateInvestment { p with annualReturn := p.annualReturn + 2 },
        calculateInvestment p,
        calculateInvestment { p with annualReturn := max 0 (p.annualReturn - 2) } with
  | some o, some b, some q => some { optimistic := o, base := b, pessimistic := q }
  | _, _, _ => none

/-- `calculateNetIncome` from the source: flat deduction chosen by
descending threshold, then `Math.round`. -/
def calculateNetIncome (grossIncome : ℚ) : ℤ :=
  jround (grossIncome *
    (1 - if grossIncome ≥ 1000 then 0.25 else if grossIncome ≥ 600 then 0.22 else 0.2))

/-- `calculateSavingsRate` from the source, including the explicit
short-circuit `if (annualNetIncome === 0) return 0`. -/
def calculateSavingsRate (grossIncome bonus monthlyExpense : ℚ) : ℤ :=
  if ((calculateNetIncome grossIncome : ℚ) + bonus) = 0 then 0
  else max 0 (jround ((((calculateNetIncome grossIncome : ℚ) + bonus) - monthlyExpense * 12) /
    ((calculateNetIncome grossIncome : ℚ) + bonus) * 100))

/-- The exact (unrounded) running total balance after `n` full years of the
year loop, as a closed recurrence: twelve compounding month steps per year. -/
def exactTotal (m r : ℚ) : ℕ → ℚ
  | 0 => 0
  | n+1 => monthsLoop m r 12 (exactTotal m r n)

/-- The `YearlyData` record produced by iteration `i` (0-based) of the year
loop, expressed through the closed recurrence `exactTotal`. -/
def entryAt (m r : ℚ) (i : ℕ) : YearlyData :=
  { year := i + 1
    principal := jround (m * 12 * ((i : ℚ) + 1))
    earnings := jround (exactTotal m r (i + 1) - m * 12 * ((i : ℚ) + 1))
    total := jround (exactTotal m r (i + 1))
    yearlyEarnings := jround (exactTotal m r (i + 1) - exactTotal m r i - m * 12) }

/-- Exact running total of `calculateInvestment p` after `n` years. -/
def exT (p : SimulationParams) (n : ℕ) : ℚ :=
  exactTotal p.monthlyAmount (monthlyReturn p) n

/-- Final amount projection of a parameter record, when defined. -/
def finalAmountOf (p : SimulationParams) : Option ℤ :=
  (calculateInvestment p).map SimulationResult.finalAmount

/-- The three scenario final amounts (optimistic, base, pessimistic). -/
def scenarioFinals (p : SimulationParams) : Option (ℤ × ℤ × ℤ) :=
  (calculateRiskScenarios p).map
    (fun rs => (rs.optimistic.finalAmount, rs.base.finalAmount, rs.pessimistic.finalAmount))

theorem investLoop_eq_map (m r : ℚ) (k : ℕ) :
    ∀ j : ℕ, investLoop m r k (j + 1) (m * 12 * (j : ℚ)) (exactTotal m r j) =
      (List.range k).map (fun i => entryAt m r (j + i)) := by
  induction k with
  | zero => intro j; simp [investLoop]
  | succ k ih =>
    intro j
    rw [List.range_succ_eq_map, List.map_cons, List.map_map]
    simp only [investLoop]
    have hstep : monthsLoop m r 12 (exactTotal m r j) = exactTotal m r (j + 1) := rfl
    refine List.cons_eq_cons.mpr ⟨?_, ?_⟩
    · simp only [entryAt, Nat.add_zero, hstep]
      refine YearlyData.ext rfl ?_ ?_ rfl rfl
      · congr 1; ring_nf
      · congr 1; ring_nf
    · have harg : m * 12 * (j : ℚ) + m * 12 = m * 12 * (((j + 1 : ℕ) : ℚ)) := by
        push_cast; ring
      rw [harg, hstep, ih (j + 1)]
      refine List.map_congr_left ?_
      intro i _
      have : j + 1 + i = j + (Nat.succ i) := by omega
      simp [Function.comp, this]

theorem investLoop_one (m r : ℚ) (k : ℕ) :
    investLoop m r k 1 0 0 = (List.range k).map (entryAt m r) := by
  have h := investLoop_eq_map m r k 0
  simp only [Nat.cast_zero, mul_zero, Nat.zero_add, zero_add] at h
  have h0 : exactTotal m r 0 = 0 := rfl
  rw [h0] at h
  simpa using h

theorem calculateInvestment_some (p : SimulationParams) (n : ℕ)
    (h : numYears p.years = n + 1) :
    calculateInvestment p = some
      { finalAmount := (entryAt p.monthlyAmount (monthlyReturn p) n).total
        totalPrincipal := (entryAt p.monthlyAmount (monthlyReturn p) n).principal
        totalEarnings := (entryAt p.monthlyAmount (monthlyReturn p) n).earnings
        yearlyData := (List.range (n+1)).map (entryAt p.monthlyAmount (monthlyReturn p)) } := by
  unfold calculateInvestment
  rw [h, investLoop_one, List.range_succ, List.map_append, List.map_singleton,
    List.getLast?_concat]

theorem calculateInvestment_none (p : SimulationParams)
    (h : numYears p.years = 0) : calculateInvestment p = none := by
  unfold calculateInvestment
  rw [h]
  rfl

theorem calculateInvestment_spec (p : SimulationParams) (res : SimulationResult)
    (h : calculateInvestment p = some res) :
    ∃ n, numYears p.years = n + 1 ∧
      res = { finalAmount := (entryAt p.monthlyAmount (monthlyReturn p) n).total
              totalPrincipal := (entryAt p.monthlyAmount (monthlyReturn p) n).principal
              totalEarnings := (entryAt p.monthlyAmount (monthlyReturn p) n).earnings
              yearlyData := (List.range (n+1)).map (entryAt p.monthlyAmount (monthlyReturn p)) } := by
  cases hn : numYears p.years with
  | zero => rw [calculateInvestment_none p hn] at h; exact absurd h (by simp)
  | succ n =>
    refine ⟨n, rfl, ?_⟩
    rw [calculateInvestment_some p n hn] at h
    exact (Option.some.injEq _ _).mp h.symm

theorem jround_eq {q : ℚ} {z : ℤ} (h1 : (z : ℚ) ≤ q + 1/2) (h2 : q + 1/2 < z + 1) :
    jround q = z :=
  Int.floor_eq_iff.mpr ⟨h1, h2⟩

theorem jround_intCast (z : ℤ) : jround (z : ℚ) = z := by
  rw [jround, add_comm, Int.floor_add_int]
  norm_num

theorem jround_add_int (q : ℚ) (z : ℤ) : jround (q + (z : ℚ)) = jround q + z := by
  rw [jround, add_right_comm, Int.floor_add_int, jround]

theorem jround_mono {a b : ℚ} (h : a ≤ b) : jround a ≤ jround b :=
  Int.floor_mono (by linarith)

theorem monthsLoop_nonneg (m r : ℚ) (hm : 0 ≤ m) (hr : -1 ≤ r) :
    ∀ (k : ℕ) (t : ℚ), 0 ≤ t → 0 ≤ monthsLoop m r k t := by
  intro k
  induction k with
  | zero => intro t ht; simpa [monthsLoop] using ht
  | succ k ih =>
    intro t ht
    rw [monthsLoop]
    exact ih _ (mul_nonneg (by linarith) (by linarith))

theorem monthsLoop_mono (m : ℚ) (hm : 0 ≤ m) :
    ∀ (k : ℕ) (r₁ r₂ t₁ t₂ : ℚ), -1 ≤ r₁ → r₁ ≤ r₂ → 0 ≤ t₁ → t₁ ≤ t₂ →
      monthsLoop m r₁ k t₁ ≤ monthsLoop m r₂ k t₂ := by
  intro k
  induction k with
  | zero => intro r₁ r₂ t₁ t₂ _ _ _ ht; simpa [monthsLoop] using ht
  | succ k ih =>
    intro r₁ r₂ t₁ t₂ hr₁ hr ht₁ ht
    rw [monthsLoop, monthsLoop]
    refine ih r₁ r₂ _ _ hr₁ hr (mul_nonneg (by linarith) (by linarith)) ?_
    calc (t₁ + m) * (1 + r₁) ≤ (t₂ + m) * (1 + r₁) := by nlinarith
      _ ≤ (t₂ + m) * (1 + r₂) := by nlinarith

theorem monthsLoop_ge (m r : ℚ) (hm : 0 ≤ m) (hr : 0 ≤ r) :
    ∀ (k : ℕ) (t : ℚ), 0 ≤ t → t + k * m ≤ monthsLoop m r k t := by
  intro k
  induction k with
  | zero => intro t _; simp [monthsLoop]
  | succ k ih =>
    intro t ht
    rw [monthsLoop]
    have h1 : t + m ≤ (t + m) * (1 + r) := by nlinarith
    have h2 := ih ((t + m) * (1 + r)) (by nlinarith)
    push_cast
    push_cast at h2
    linarith

theorem monthsLoop_zero_rate (m : ℚ) :
    ∀ (k : ℕ) (t : ℚ), monthsLoop m 0 k t = t + k * m := by
  intro k
  induction k with
  | zero => intro t; simp [monthsLoop]
  | succ k ih =>
    intro t
    rw [monthsLoop, ih]
    push_cast
    ring

theorem exactTotal_nonneg (m r : ℚ) (hm : 0 ≤ m) (hr : -1 ≤ r) (n : ℕ) :
    0 ≤ exactTotal m r n := by
  induction n with
  | zero => simp [exactTotal]
  | succ n ih => exact monthsLoop_nonneg m r hm hr 12 _ ih

theorem exactTotal_mono_rate (m : ℚ) (hm : 0 ≤ m) {r₁ r₂ : ℚ}
    (hr₁ : -1 ≤ r₁) (hr : r₁ ≤ r₂) (n : ℕ) :
    exactTotal m r₁ n ≤ exactTotal m r₂ n := by
  induction n with
  | zero => simp [exactTotal]
  | succ n ih =>
    exact monthsLoop_mono m hm 12 r₁ r₂ _ _ hr₁ hr (exactTotal_nonneg m r₁ hm hr₁ n) ih

theorem exactTotal_zero_rate (m : ℚ) (n : ℕ) :
    exactTotal m 0 n = m * 12 * (n : ℚ) := by
  induction n with
  | zero => simp [exactTotal]
  | succ n ih =>
    rw [exactTotal, monthsLoop_zero_rate, ih]
    push_cast
    ring

theorem exactTotal_succ_ge (m r : ℚ) (hm : 0 ≤ m) (hr : 0 ≤ r) (n : ℕ) :
    exactTotal m r n + m * 12 ≤ exactTotal m r (n + 1) := by
  have h := monthsLoop_ge m r hm hr 12 (exactTotal m r n)
    (exactTotal_nonneg m r hm (by linarith) n)
  rw [exactTotal]
  push_cast at h
  linarith

theorem numYears_natCast (n : ℕ) : numYears (n : ℚ) = n := by
  rw [numYears, Int.floor_natCast, Int.toNat_natCast]

theorem numYears_eq_zero_iff (y : ℚ) : numYears y = 0 ↔ y < 1 := by
  rw [numYears]
  constructor
  · intro h
    by_contra hlt
    push_neg at hlt
    have : (1 : ℤ) ≤ ⌊y⌋ := by
      rw [Int.le_floor]
      exact_mod_cast hlt
    omega
  · intro h
    have : ⌊y⌋ < 1 := Int.floor_lt.mpr (by exact_mod_cast h)
    omega

theorem entryAt_eq (m r : ℚ) (i : ℕ) (T0 T1 P : ℚ) (a b c d : ℤ)
    (hT0 : exactTotal m r i = T0) (hT1 : exactTotal m r (i + 1) = T1)
    (hP : m * 12 * ((i : ℚ) + 1) = P)
    (h1 : (a : ℚ) ≤ P + 1/2) (h2 : P + 1/2 < a + 1)
    (h3 : (b : ℚ) ≤ T1 - P + 1/2) (h4 : T1 - P + 1/2 < b + 1)
    (h5 : (c : ℚ) ≤ T1 + 1/2) (h6 : T1 + 1/2 < c + 1)
    (h7 : (d : ℚ) ≤ T1 - T0 - m * 12 + 1/2) (h8 : T1 - T0 - m * 12 + 1/2 < d + 1) :
    entryAt m r i = ⟨i + 1, a, b, c, d⟩ := by
  unfold entryAt
  rw [hP, hT1, hT0]
  exact YearlyData.ext rfl (jround_eq h1 h2) (jround_eq h3 h4) (jround_eq h5 h6)
    (jround_eq h7 h8)

/-- C1 (amended): when the monthly contribution is a whole currency amount,
the reported invariant holds: for every integer-valued `monthlyAmount` and
every defined result, `finalAmount = totalPrincipal + totalEarnings`. -/
theorem C1_invariant_integer_amount (p : SimulationParams) (k : ℤ) (res : SimulationResult)
    (hm : p.monthlyAmount = (k : ℚ)) (h : calculateInvestment p = some res) :
    res.finalAmount = res.totalPrincipal + res.totalEarnings := by
  obtain ⟨n, hn, rfl⟩ := calculateInvestment_spec p res h
  simp only [entryAt]
  rw [hm]
  have hP : (k : ℚ) * 12 * ((n : ℚ) + 1) = ((k * 12 * ((n : ℤ) + 1) : ℤ) : ℚ) := by
    push_cast; ring
  rw [hP, jround_intCast]
  have key := jround_add_int
    (exactTotal (k : ℚ) (monthlyReturn p) (n + 1) - ((k * 12 * ((n : ℤ) + 1) : ℤ) : ℚ))
    (k * 12 * ((n : ℤ) + 1))
  have hsub : exactTotal (k : ℚ) (monthlyReturn p) (n + 1) - ((k * 12 * ((n : ℤ) + 1) : ℤ) : ℚ)
      + ((k * 12 * ((n : ℤ) + 1) : ℤ) : ℚ) = exactTotal (k : ℚ) (monthlyReturn p) (n + 1) := by
    ring
  rw [hsub] at key
  rw [key]
  omega

/-- C1 (counterexample): for the valid parameters `monthlyAmount = 1/20`,
`years = 1`, `annualReturn = 120`, `fees = 0` the code returns
`finalAmount = 1` but `totalPrincipal + totalEarnings = 1 + 1 = 2`: the three
summary fields are rounded separately, so the claimed exact identity fails
for fractional monthly amounts. -/
theorem C1_counterexample :
    calculateInvestment ⟨1/20, 1, 120, 0, 0⟩ =
      some ⟨1, 1, 1, [⟨1, 1, 1, 1, 1⟩]⟩ ∧ ¬ ((1 : ℤ) = 1 + 1) := by
  constructor
  · have hm : (⟨1/20, 1, 120, 0, 0⟩ : SimulationParams).monthlyAmount = 1/20 := rfl
    have hr : monthlyReturn ⟨1/20, 1, 120, 0, 0⟩ = 1/10 := by
      norm_num [monthlyReturn, effectiveReturn]
    have he : entryAt (1/20) (1/10) 0 = ⟨1, 1, 1, 1, 1⟩ :=
      entryAt_eq (1/20) (1/10) 0 0 (23522712143931/20000000000000) (3/5) 1 1 1 1
        (by norm_num [exactTotal]) (by norm_num [exactTotal, monthsLoop]) (by norm_num)
        (by norm_num) (by norm_num) (by norm_num) (by norm_num) (by norm_num)
        (by norm_num) (by norm_num) (by norm_num)
    rw [calculateInvestment_some ⟨1/20, 1, 120, 0, 0⟩ 0 (by norm_num [numYears]), hm, hr]
    rw [show List.range 1 = [0] from rfl]
    simp only [List.map_cons, List.map_nil, he]
  · decide

/-- C1 (witness): concrete instance of the amended invariant at
`monthlyAmount = 10000`, `years = 1`, `annualReturn = 0`. -/
theorem C1_witness :
    calculateInvestment ⟨10000, 1, 0, 0, 0⟩ =
      some ⟨120000, 120000, 0, [⟨1, 120000, 0, 120000, 0⟩]⟩ ∧
    (120000 : ℤ) = 120000 + 0 := by
  have hm : (⟨10000, 1, 0, 0, 0⟩ : SimulationParams).monthlyAmount = 10000 := rfl
  have hr : monthlyReturn ⟨10000, 1, 0, 0, 0⟩ = 0 := by
    norm_num [monthlyReturn, effectiveReturn]
  have he : entryAt (10000) (0) 0 = ⟨1, 120000, 0, 120000, 0⟩ :=
    entryAt_eq 10000 0 0 0 120000 120000 120000 0 120000 0
      (by norm_num [exactTotal]) (by norm_num [exactTotal, monthsLoop]) (by norm_num)
      (by norm_num) (by norm_num) (by norm_num) (by norm_num) (by norm_num)
      (by norm_num) (by norm_num) (by norm_num)
  have h : calculateInvestment ⟨10000, 1, 0, 0, 0⟩ =
      some ⟨120000, 120000, 0, [⟨1, 120000, 0, 120000, 0⟩]⟩ := by
    rw [calculateInvestment_some ⟨10000, 1, 0, 0, 0⟩ 0 (by norm_num [numYears]), hm, hr]
    rw [show List.range 1 = [0] from rfl]
    simp only [List.map_cons, List.map_nil, he]
  exact ⟨h, C1_invariant_integer_amount ⟨10000, 1, 0, 0, 0⟩ 10000 _ (by norm_num) h⟩

theorem numYears_eval (n : ℕ) (y : ℚ) (h : y = (n : ℚ)) : numYears y = n := by
  rw [h, numYears_natCast]

/-- C5 (counterexample): at `monthlyAmount = 1/10`, `years = 1`,
`annualReturn = fees = 0` the code yields `finalAmount = 1`, but
`monthlyAmount * 12 * years = 6/5`, so the claimed exact equality
`finalAmount == monthlyAmount * 12 * years` fails (the final amount is the
rounded principal). -/
theorem C5_counterexample :
    finalAmountOf ⟨1/10, 1, 0, 0, 0⟩ = some 1 ∧
    ¬ (((1 : ℤ) : ℚ) = (1/10) * 12 * 1) := by
  constructor
  · have hm : (⟨1/10, 1, 0, 0, 0⟩ : SimulationParams).monthlyAmount = 1/10 := rfl
    have hr : monthlyReturn ⟨1/10, 1, 0, 0, 0⟩ = 0 := by
      norm_num [monthlyReturn, effectiveReturn]
    have he : entryAt (1/10) 0 0 = ⟨1, 1, 0, 1, 0⟩ :=
      entryAt_eq (1/10) 0 0 0 (6/5) (6/5) 1 0 1 0
        (by norm_num [exactTotal]) (by norm_num [exactTotal, monthsLoop]) (by norm_num)
        (by norm_num) (by norm_num) (by norm_num) (by norm_num) (by norm_num)
        (by norm_num) (by norm_num) (by norm_num)
    rw [finalAmountOf,
      calculateInvestment_some ⟨1/10, 1, 0, 0, 0⟩ 0 (by norm_num [numYears]), hm, hr,
      Option.map_some', he]
  · norm_num

/-- C5 (amended): under zero effective return (`annualReturn = fees`) and an
integer horizon, `totalEarnings = 0` and
`finalAmount = totalPrincipal = round(monthlyAmount * 12 * years)` (the
summary fields are the rounded exact values, so the unrounded product is
only reached after rounding); in particular the concrete scenario
`project({monthlyAmount: 10000, years: 10, annualReturn: 0})` returns
exactly `(1200000, 1200000, 0)`. -/
theorem C5_zero_return (p : SimulationParams) (n : ℕ) (res : SimulationResult)
    (hy : p.years = (n : ℚ)) (hzero : p.annualReturn = p.fees)
    (h : calculateInvestment p = some res) :
    res.totalEarnings = 0 ∧ res.finalAmount = res.totalPrincipal ∧
    res.totalPrincipal = jround (p.monthlyAmount * 12 * (n : ℚ)) ∧
    (calculateInvestment ⟨10000, 10, 0, 0, 0⟩).map
        (fun r => (r.finalAmount, r.totalPrincipal, r.totalEarnings)) =
      some (1200000, 1200000, 0) := by
  have hr0 : monthlyReturn p = 0 := by
    rw [monthlyReturn, effectiveReturn, hzero]
    simp
  obtain ⟨k, hk, rfl⟩ := calculateInvestment_spec p res h
  have hn : n = k + 1 := by
    rw [hy, numYears_natCast] at hk
    omega
  refine ⟨?_, ?_, ?_, ?_⟩
  · simp only [entryAt, hr0, exactTotal_zero_rate]
    have : p.monthlyAmount * 12 * ((k : ℚ) + 1) - p.monthlyAmount * 12 * (((k + 1 : ℕ)) : ℚ)
        = 0 := by push_cast; ring
    rw [show ((k : ℕ) + 1 : ℕ) = k + 1 from rfl]
    rw [sub_eq_zero.mpr (by push_cast; ring)]
    exact jround_eq (by norm_num) (by norm_num)
  · simp only [entryAt, hr0, exactTotal_zero_rate]
    congr 1
    push_cast
    ring
  · simp only [entryAt, hr0, exactTotal_zero_rate]
    congr 1
    rw [hn]
    push_cast
    ring
  · have hm : (⟨10000, 10, 0, 0, 0⟩ : SimulationParams).monthlyAmount = 10000 := rfl
    have hr : monthlyReturn ⟨10000, 10, 0, 0, 0⟩ = 0 := by
      norm_num [monthlyReturn, effectiveReturn]
    have he : entryAt 10000 0 9 = ⟨10, 1200000, 0, 1200000, 0⟩ :=
      entryAt_eq 10000 0 9 1080000 1200000 1200000 1200000 0 1200000 0
        (by rw [exactTotal_zero_rate]; norm_num) (by rw [exactTotal_zero_rate]; norm_num)
        (by norm_num) (by norm_num) (by norm_num) (by norm_num) (by norm_num)
        (by norm_num) (by norm_num) (by norm_num) (by norm_num)
    rw [calculateInvestment_some ⟨10000, 10, 0, 0, 0⟩ 9 (numYears_eval 10 _ (by norm_num)),
      hm, hr, Option.map_some', he]

/-- C5 (witness): concrete instance of the amended zero-effective-return
property at `monthlyAmount = 3`, `years = 1`, `annualReturn = fees = 5`. -/
theorem C5_witness :
    calculateInvestment ⟨3, 1, 5, 5, 0⟩ = some ⟨36, 36, 0, [⟨1, 36, 0, 36, 0⟩]⟩ ∧
    ((0 : ℤ) = 0 ∧ (36 : ℤ) = 36 ∧
      (36 : ℤ) = jround (3 * 12 * ((1 : ℕ) : ℚ)) ∧
      (calculateInvestment ⟨10000, 10, 0, 0, 0⟩).map
          (fun r => (r.finalAmount, r.totalPrincipal, r.totalEarnings)) =
        some (1200000, 1200000, 0)) := by
  have hm : (⟨3, 1, 5, 5, 0⟩ : SimulationParams).monthlyAmount = 3 := rfl
  have hr : monthlyReturn ⟨3, 1, 5, 5, 0⟩ = 0 := by
    norm_num [monthlyReturn, effectiveReturn]
  have he : entryAt 3 0 0 = ⟨1, 36, 0, 36, 0⟩ :=
    entryAt_eq 3 0 0 0 36 36 36 0 36 0
      (by norm_num [exactTotal]) (by norm_num [exactTotal, monthsLoop]) (by norm_num)
      (by norm_num) (by norm_num) (by norm_num) (by norm_num) (by norm_num)
      (by norm_num) (by norm_num) (by norm_num)
  have h : calculateInvestment ⟨3, 1, 5, 5, 0⟩ = some ⟨36, 36, 0, [⟨1, 36, 0, 36, 0⟩]⟩ := by
    rw [calculateInvestment_some ⟨3, 1, 5, 5, 0⟩ 0 (by norm_num [numYears]), hm, hr]
    rw [show List.range 1 = [0] from rfl]
    simp only [List.map_cons, List.map_nil, he]
  exact ⟨h, C5_zero_return ⟨3, 1, 5, 5, 0⟩ 1 _ (by norm_num) (by norm_num) h⟩

/-- C8: `calculateNetIncome` applies one flat deduction selected by
descending threshold (first match wins): 25% for `gross ≥ 1000`, else 22%
for `gross ≥ 600`, else 20%, returning `round(gross * (1 - rate))`; and the
concrete values `netIncome 1000 = 750`, `netIncome 600 = 468`,
`netIncome 500 = 400` hold. -/
theorem C8_net_income_brackets :
    (∀ g : ℚ,
      (1000 ≤ g → calculateNetIncome g = jround (g * (3/4))) ∧
      (600 ≤ g → g < 1000 → calculateNetIncome g = jround (g * (39/50))) ∧
      (g < 600 → calculateNetIncome g = jround (g * (4/5)))) ∧
    calculateNetIncome 1000 = 750 ∧ calculateNetIncome 600 = 468 ∧
    calculateNetIncome 500 = 400 := by
  have h25 : ∀ g : ℚ, 1000 ≤ g → calculateNetIncome g = jround (g * (3/4)) := by
    intro g hg
    unfold calculateNetIncome
    rw [if_pos hg]
    congr 1
    norm_num
  have h22 : ∀ g : ℚ, 600 ≤ g → g < 1000 → calculateNetIncome g = jround (g * (39/50)) := by
    intro g h6 h10
    unfold calculateNetIncome
    rw [if_neg (by simp only [ge_iff_le, not_le]; exact h10), if_pos h6]
    congr 1
    norm_num
  have h20 : ∀ g : ℚ, g < 600 → calculateNetIncome g = jround (g * (4/5)) := by
    intro g h6
    unfold calculateNetIncome
    rw [if_neg (by simp only [ge_iff_le, not_le]; linarith),
      if_neg (by simp only [ge_iff_le, not_le]; exact h6)]
    congr 1
    norm_num
  refine ⟨fun g => ⟨h25 g, h22 g, h20 g⟩, ?_, ?_, ?_⟩
  · rw [h25 1000 (by norm_num), show (1000 : ℚ) * (3/4) = ((750 : ℤ) : ℚ) by norm_num,
      jround_intCast]
  · rw [h22 600 (by norm_num) (by norm_num),
      show (600 : ℚ) * (39/50) = ((468 : ℤ) : ℚ) by norm_num, jround_intCast]
  · rw [h20 500 (by norm_num), show (500 : ℚ) * (4/5) = ((400 : ℤ) : ℚ) by norm_num,
      jround_intCast]

/-- C8 (witness): the top bracket applied at a concrete gross income. -/
theorem C8_witness :
    (1000 : ℚ) ≤ 2000 ∧ calculateNetIncome 2000 = jround (2000 * (3/4)) :=
  ⟨by norm_num, (C8_net_income_brackets.1 2000).1 (by norm_num)⟩

/-- C9: `calculateSavingsRate` returns 0 by explicit short-circuit whenever
the annual net income `calculateNetIncome gross + bonus` is 0, otherwise
returns `max 0 (round((annualNet - 12 * monthlyExpense) / annualNet * 100))`,
and the result is always a non-negative integer. -/
theorem C9_savings_rate (g b e : ℚ) :
    ((calculateNetIncome g : ℚ) + b = 0 → calculateSavingsRate g b e = 0) ∧
    ((calculateNetIncome g : ℚ) + b ≠ 0 →
      calculateSavingsRate g b e =
        max 0 (jround ((((calculateNetIncome g : ℚ) + b) - e * 12) /
          ((calculateNetIncome g : ℚ) + b) * 100))) ∧
    0 ≤ calculateSavingsRate g b e := by
  refine ⟨fun h => ?_, fun h => ?_, ?_⟩
  · unfold calculateSavingsRate
    rw [if_pos h]
  · unfold calculateSavingsRate
    rw [if_neg h]
  · unfold calculateSavingsRate
    split_ifs with h
    · exact le_refl 0
    · exact le_max_left 0 _

/-- C9 (witness): concrete instance with non-zero annual net income. -/
theorem C9_witness :
    (calculateNetIncome 500 : ℚ) + 100 ≠ 0 →
      calculateSavingsRate 500 100 10 =
        max 0 (jround ((((calculateNetIncome 500 : ℚ) + 100) - 10 * 12) /
          ((calculateNetIncome 500 : ℚ) + 100) * 100)) :=
  (C9_savings_rate 500 100 10).2.1

/-- C10: the final-element access at the end of `calculateInvestment` is
in bounds exactly under the implicit precondition `years ≥ 1`: for
`years ≥ 1` the loop runs at least once, the result is defined and its
`yearlyData` is non-empty; for `years < 1` the loop runs zero times and the
accessed value does not exist (the result is `none`). -/
theorem C10_final_access_safety (p : SimulationParams) :
    (1 ≤ p.years → calculateInvestment p ≠ none ∧
      ∀ res, calculateInvestment p = some res → res.yearlyData ≠ []) ∧
    (p.years < 1 → calculateInvestment p = none) := by
  constructor
  · intro h
    obtain ⟨n, hn⟩ : ∃ n, numYears p.years = n + 1 := by
      cases hc : numYears p.years with
      | zero => exact absurd ((numYears_eq_zero_iff _).mp hc) (by linarith)
      | succ n => exact ⟨n, rfl⟩
    constructor
    · rw [calculateInvestment_some p n hn]
      simp
    · intro res hres
      obtain ⟨k, hk, rfl⟩ := calculateInvestment_spec p res hres
      simp [List.range_succ]
  · intro h
    exact calculateInvestment_none p ((numYears_eq_zero_iff _).mpr h)

/-- C10 (witness): for `years = 1` the result is defined; for `years = 0`
the final-element access misses (result `none`). -/
theorem C10_witness :
    calculateInvestment ⟨1, 1, 0, 0, 0⟩ ≠ none ∧
    calculateInvestment ⟨1, 0, 0, 0, 0⟩ = none :=
  ⟨((C10_final_access_safety ⟨1, 1, 0, 0, 0⟩).1 (by norm_num)).1,
   (C10_final_access_safety ⟨1, 0, 0, 0, 0⟩).2 (by norm_num)⟩

/-- C2 (counterexample): at `monthlyAmount = 9/20`, `years = 1`,
`annualReturn = 120`, `fees = 0` the recorded entry has `earnings = 5` while
`total - principal = 11 - 5 = 6`: the code rounds the unrounded running
earnings, which differs from the difference of the rounded fields. -/
theorem C2_counterexample :
    calculateInvestment ⟨9/20, 1, 120, 0, 0⟩ =
      some ⟨11, 5, 5, [⟨1, 5, 5, 11, 5⟩]⟩ ∧ ¬ ((5 : ℤ) = 11 - 5) := by
  constructor
  · have hm : (⟨9/20, 1, 120, 0, 0⟩ : SimulationParams).monthlyAmount = 9/20 := rfl
    have hr : monthlyReturn ⟨9/20, 1, 120, 0, 0⟩ = 1/10 := by
      norm_num [monthlyReturn, effectiveReturn]
    have he : entryAt (9/20) (1/10) 0 = ⟨1, 5, 5, 11, 5⟩ :=
      entryAt_eq (9/20) (1/10) 0 0 (211704409295379/20000000000000) (27/5) 5 5 11 5
        (by norm_num [exactTotal]) (by norm_num [exactTotal, monthsLoop]) (by norm_num)
        (by norm_num) (by norm_num) (by norm_num) (by norm_num) (by norm_num)
        (by norm_num) (by norm_num) (by norm_num)
    rw [calculateInvestment_some ⟨9/20, 1, 120, 0, 0⟩ 0 (by norm_num [numYears]), hm, hr]
    rw [show List.range 1 = [0] from rfl]
    simp only [List.map_cons, List.map_nil, he]
  · decide

/-- C2 (amended): each recorded cumulative `earnings` field is the rounding
of the unrounded running earnings,
`round(exactTotal(year) - monthlyAmount * 12 * year)`, not the difference
`round(total) - round(principal)` of the rounded fields of the entry. -/
theorem C2_earnings_rounding (p : SimulationParams) (res : SimulationResult)
    (h : calculateInvestment p = some res) (i : ℕ) (hi : i < res.yearlyData.length) :
    (res.yearlyData.get ⟨i, hi⟩).earnings =
      jround (exT p (i + 1) - p.monthlyAmount * 12 * ((i : ℚ) + 1)) := by
  obtain ⟨n, hn, rfl⟩ := calculateInvestment_spec p res h
  simp only [List.get_eq_getElem, List.getElem_map, List.getElem_range]
  simp only [entryAt, exT]

/-- C2 (witness): concrete instance of the amended earnings formula at
`monthlyAmount = 500`, `years = 2`, `annualReturn = 0`, first entry. -/
theorem C2_witness :
    calculateInvestment ⟨500, 2, 0, 0, 0⟩ =
      some ⟨12000, 12000, 0, [⟨1, 6000, 0, 6000, 0⟩, ⟨2, 12000, 0, 12000, 0⟩]⟩ ∧
    (([⟨1, 6000, 0, 6000, 0⟩, ⟨2, 12000, 0, 12000, 0⟩] : List YearlyData).get
        ⟨0, by decide⟩).earnings =
      jround (exT ⟨500, 2, 0, 0, 0⟩ (0 + 1) -
        (⟨500, 2, 0, 0, 0⟩ : SimulationParams).monthlyAmount * 12 * (((0 : ℕ) : ℚ) + 1)) := by
  have hm : (⟨500, 2, 0, 0, 0⟩ : SimulationParams).monthlyAmount = 500 := rfl
  have hr : monthlyReturn ⟨500, 2, 0, 0, 0⟩ = 0 := by
    norm_num [monthlyReturn, effectiveReturn]
  have he0 : entryAt 500 0 0 = ⟨1, 6000, 0, 6000, 0⟩ :=
    entryAt_eq 500 0 0 0 6000 6000 6000 0 6000 0
      (by norm_num [exactTotal]) (by norm_num [exactTotal, monthsLoop]) (by norm_num)
      (by norm_num) (by norm_num) (by norm_num) (by norm_num) (by norm_num)
      (by norm_num) (by norm_num) (by norm_num)
  have he1 : entryAt 500 0 1 = ⟨2, 12000, 0, 12000, 0⟩ :=
    entryAt_eq 500 0 1 6000 12000 12000 12000 0 12000 0
      (by norm_num [exactTotal, monthsLoop]) (by norm_num [exactTotal, monthsLoop])
      (by norm_num) (by norm_num) (by norm_num) (by norm_num) (by norm_num)
      (by norm_num) (by norm_num) (by norm_num) (by norm_num)
  have h : calculateInvestment ⟨500, 2, 0, 0, 0⟩ =
      some ⟨12000, 12000, 0, [⟨1, 6000, 0, 6000, 0⟩, ⟨2, 12000, 0, 12000, 0⟩]⟩ := by
    rw [calculateInvestment_some ⟨500, 2, 0, 0, 0⟩ 1 (numYears_eval 2 _ (by norm_num)), hm, hr]
    rw [show List.range 2 = [0, 1] from rfl]
    simp only [List.map_cons, List.map_nil, he0, he1]
  exact ⟨h, C2_earnings_rounding ⟨500, 2, 0, 0, 0⟩ _ h 0 (by decide)⟩

/-- C3 (counterexample): at `monthlyAmount = 1`, `years = 2`,
`annualReturn = 120`, `fees = 0` the second entry records
`yearlyEarnings = 62`, while the claimed formula gives
`round(total 2) - round(total 1) - 12 = 97 - 24 - 12 = 61`: the code rounds
the unrounded yearly difference instead. -/
theorem C3_counterexample :
    calculateInvestment ⟨1, 2, 120, 0, 0⟩ =
      some ⟨97, 24, 73, [⟨1, 12, 12, 24, 12⟩, ⟨2, 24, 73, 97, 62⟩]⟩ ∧
    ¬ ((62 : ℤ) = 97 - 24 - 12) := by
  constructor
  · have hm : (⟨1, 2, 120, 0, 0⟩ : SimulationParams).monthlyAmount = 1 := rfl
    have hr : monthlyReturn ⟨1, 2, 120, 0, 0⟩ = 1/10 := by
      norm_num [monthlyReturn, effectiveReturn]
    have he0 : entryAt 1 (1/10) 0 = ⟨1, 12, 12, 24, 12⟩ :=
      entryAt_eq 1 (1/10) 0 0 (23522712143931/1000000000000) 12 12 12 24 12
        (by norm_num [exactTotal]) (by norm_num [exactTotal, monthsLoop]) (by norm_num)
        (by norm_num) (by norm_num) (by norm_num) (by norm_num) (by norm_num)
        (by norm_num) (by norm_num) (by norm_num)
    have he1 : entryAt 1 (1/10) 1 = ⟨2, 24, 73, 97, 62⟩ :=
      entryAt_eq 1 (1/10) 1 (23522712143931/1000000000000)
        (97347059433883722041830251/1000000000000000000000000) 24 24 73 97 62
        (by norm_num [exactTotal, monthsLoop]) (by norm_num [exactTotal, monthsLoop])
        (by norm_num) (by norm_num) (by norm_num) (by norm_num) (by norm_num)
        (by norm_num) (by norm_num) (by norm_num) (by norm_num)
    rw [calculateInvestment_some ⟨1, 2, 120, 0, 0⟩ 1 (numYears_eval 2 _ (by norm_num)), hm, hr]
    rw [show List.range 2 = [0, 1] from rfl]
    simp only [List.map_cons, List.map_nil, he0, he1]
  · decide

/-- C3 (amended): each recorded `yearlyEarnings` field is the rounding of
the unrounded yearly difference,
`round(exactTotal(year) - exactTotal(year-1) - monthlyAmount * 12)`, not the
difference of the already-rounded totals. -/
theorem C3_yearly_earnings_rounding (p : SimulationParams) (res : SimulationResult)
    (h : calculateInvestment p = some res) (i : ℕ) (hi : i < res.yearlyData.length) :
    (res.yearlyData.get ⟨i, hi⟩).yearlyEarnings =
      jround (exT p (i + 1) - exT p i - p.monthlyAmount * 12) := by
  obtain ⟨n, hn, rfl⟩ := calculateInvestment_spec p res h
  simp only [List.get_eq_getElem, List.getElem_map, List.getElem_range]
  simp only [entryAt, exT]

/-- C3 (witness): concrete instance of the amended yearly-earnings formula
at `monthlyAmount = 700`, `years = 1`, `annualReturn = 0`. -/
theorem C3_witness :
    calculateInvestment ⟨700, 1, 0, 0, 0⟩ =
      some ⟨8400, 8400, 0, [⟨1, 8400, 0, 8400, 0⟩]⟩ ∧
    (([⟨1, 8400, 0, 8400, 0⟩] : List YearlyData).get ⟨0, by decide⟩).yearlyEarnings =
      jround (exT ⟨700, 1, 0, 0, 0⟩ (0 + 1) - exT ⟨700, 1, 0, 0, 0⟩ 0 -
        (⟨700, 1, 0, 0, 0⟩ : SimulationParams).monthlyAmount * 12) := by
  have hm : (⟨700, 1, 0, 0, 0⟩ : SimulationParams).monthlyAmount = 700 := rfl
  have hr : monthlyReturn ⟨700, 1, 0, 0, 0⟩ = 0 := by
    norm_num [monthlyReturn, effectiveReturn]
  have he : entryAt 700 0 0 = ⟨1, 8400, 0, 8400, 0⟩ :=
    entryAt_eq 700 0 0 0 8400 8400 8400 0 8400 0
      (by norm_num [exactTotal]) (by norm_num [exactTotal, monthsLoop]) (by norm_num)
      (by norm_num) (by norm_num) (by norm_num) (by norm_num) (by norm_num)
      (by norm_num) (by norm_num) (by norm_num)
  have h : calculateInvestment ⟨700, 1, 0, 0, 0⟩ =
      some ⟨8400, 8400, 0, [⟨1, 8400, 0, 8400, 0⟩]⟩ := by
    rw [calculateInvestment_some ⟨700, 1, 0, 0, 0⟩ 0 (by norm_num [numYears]), hm, hr]
    rw [show List.range 1 = [0] from rfl]
    simp only [List.map_cons, List.map_nil, he]
  exact ⟨h, C3_yearly_earnings_rounding ⟨700, 1, 0, 0, 0⟩ _ h 0 (by decide)⟩

/-- C6 (counterexample): at the valid parameters `monthlyAmount = 1/24`,
`years = 2`, `annualReturn = 0 = fees` both recorded entries have
`principal = 1` and `total = 1`, so the claimed strict increase fails for
small fractional monthly amounts (rounding collapses consecutive values). -/
theorem C6_counterexample :
    calculateInvestment ⟨1/24, 2, 0, 0, 0⟩ =
      some ⟨1, 1, 0, [⟨1, 1, 0, 1, 0⟩, ⟨2, 1, 0, 1, 0⟩]⟩ ∧ ¬ ((1 : ℤ) < 1) := by
  constructor
  · have hm : (⟨1/24, 2, 0, 0, 0⟩ : SimulationParams).monthlyAmount = 1/24 := rfl
    have hr : monthlyReturn ⟨1/24, 2, 0, 0, 0⟩ = 0 := by
      norm_num [monthlyReturn, effectiveReturn]
    have he0 : entryAt (1/24) 0 0 = ⟨1, 1, 0, 1, 0⟩ :=
      entryAt_eq (1/24) 0 0 0 (1/2) (1/2) 1 0 1 0
        (by norm_num [exactTotal]) (by norm_num [exactTotal, monthsLoop]) (by norm_num)
        (by norm_num) (by norm_num) (by norm_num) (by norm_num) (by norm_num)
        (by norm_num) (by norm_num) (by norm_num)
    have he1 : entryAt (1/24) 0 1 = ⟨2, 1, 0, 1, 0⟩ :=
      entryAt_eq (1/24) 0 1 (1/2) 1 1 1 0 1 0
        (by norm_num [exactTotal, monthsLoop]) (by norm_num [exactTotal, monthsLoop])
        (by norm_num) (by norm_num) (by norm_num) (by norm_num) (by norm_num)
        (by norm_num) (by norm_num) (by norm_num) (by norm_num)
    rw [calculateInvestment_some ⟨1/24, 2, 0, 0, 0⟩ 1 (numYears_eval 2 _ (by norm_num)), hm, hr]
    rw [show List.range 2 = [0, 1] from rfl]
    simp only [List.map_cons, List.map_nil, he0, he1]
  · decide

/-- C6 (amended): for a positive integer `monthlyAmount`, an integer horizon
and non-negative effective return (`fees ≤ annualReturn`), `yearlyData` has
exactly `years` entries and the recorded `principal` and `total` fields are
strictly increasing from each year to the next. -/
theorem C6_monotone_growth (p : SimulationParams) (a n : ℕ) (res : SimulationResult)
    (hma : p.monthlyAmount = (a : ℚ)) (ha : 1 ≤ a) (hy : p.years = (n : ℚ))
    (hfees : p.fees ≤ p.annualReturn) (h : calculateInvestment p = some res) :
    res.yearlyData.length = n ∧
    ∀ i (hi : i + 1 < res.yearlyData.length),
      (res.yearlyData.get ⟨i, by omega⟩).principal <
        (res.yearlyData.get ⟨i + 1, hi⟩).principal ∧
      (res.yearlyData.get ⟨i, by omega⟩).total <
        (res.yearlyData.get ⟨i + 1, hi⟩).total := by
  obtain ⟨k, hk, rfl⟩ := calculateInvestment_spec p res h
  have hr0 : 0 ≤ monthlyReturn p := by
    rw [monthlyReturn, effectiveReturn, div_div]
    exact div_nonneg (by linarith) (by norm_num)
  constructor
  · simp only [List.length_map, List.length_range]
    have : numYears p.years = n := by rw [hy, numYears_natCast]
    omega
  · intro i hi
    simp only [List.get_eq_getElem, List.getElem_map, List.getElem_range]
    have haz : (1 : ℤ) ≤ (a : ℤ) := by exact_mod_cast ha
    have hiz : (0 : ℤ) ≤ (i : ℤ) := Int.natCast_nonneg i
    constructor
    · simp only [entryAt, hma]
      rw [show ((a : ℚ) * 12 * ((i : ℚ) + 1)) = (((a * 12 * ((i : ℤ) + 1) : ℤ)) : ℚ) from by
          push_cast; ring,
        show ((a : ℚ) * 12 * (((i + 1 : ℕ) : ℚ) + 1)) = (((a * 12 * ((i : ℤ) + 2) : ℤ)) : ℚ) from by
          push_cast; ring,
        jround_intCast, jround_intCast]
      nlinarith [haz, hiz]
    · simp only [entryAt, hma]
      have hmn : (0 : ℚ) ≤ (a : ℚ) := by positivity
      have hge := exactTotal_succ_ge (a : ℚ) (monthlyReturn p) hmn hr0 (i + 1)
      have h12 : ((a : ℚ)) * 12 = (((12 * a : ℤ)) : ℚ) := by push_cast; ring
      rw [h12] at hge
      have hmono := jround_mono hge
      rw [jround_add_int] at hmono
      have h12z : (12 : ℤ) ≤ 12 * (a : ℤ) := by nlinarith [haz]
      linarith [hmono, h12z]

/-- C6 (witness): concrete instance of the amended strict growth at
`monthlyAmount = 1`, `years = 2`, `annualReturn = 0 = fees`. -/
theorem C6_witness :
    calculateInvestment ⟨1, 2, 0, 0, 0⟩ =
      some ⟨24, 24, 0, [⟨1, 12, 0, 12, 0⟩, ⟨2, 24, 0, 24, 0⟩]⟩ ∧
    (12 : ℤ) < 24 := by
  have hm : (⟨1, 2, 0, 0, 0⟩ : SimulationParams).monthlyAmount = 1 := rfl
  have hr : monthlyReturn ⟨1, 2, 0, 0, 0⟩ = 0 := by
    norm_num [monthlyReturn, effectiveReturn]
  have he0 : entryAt 1 0 0 = ⟨1, 12, 0, 12, 0⟩ :=
    entryAt_eq 1 0 0 0 12 12 12 0 12 0
      (by norm_num [exactTotal]) (by norm_num [exactTotal, monthsLoop]) (by norm_num)
      (by norm_num) (by norm_num) (by norm_num) (by norm_num) (by norm_num)
      (by norm_num) (by norm_num) (by norm_num)
  have he1 : entryAt 1 0 1 = ⟨2, 24, 0, 24, 0⟩ :=
    entryAt_eq 1 0 1 12 24 24 24 0 24 0
      (by norm_num [exactTotal, monthsLoop]) (by norm_num [exactTotal, monthsLoop])
      (by norm_num) (by norm_num) (by norm_num) (by norm_num) (by norm_num)
      (by norm_num) (by norm_num) (by norm_num) (by norm_num)
  have h : calculateInvestment ⟨1, 2, 0, 0, 0⟩ =
      some ⟨24, 24, 0, [⟨1, 12, 0, 12, 0⟩, ⟨2, 24, 0, 24, 0⟩]⟩ := by
    rw [calculateInvestment_some ⟨1, 2, 0, 0, 0⟩ 1 (numYears_eval 2 _ (by norm_num)), hm, hr]
    rw [show List.range 2 = [0, 1] from rfl]
    simp only [List.map_cons, List.map_nil, he0, he1]
  exact ⟨h, ((C6_monotone_growth ⟨1, 2, 0, 0, 0⟩ 1 2 _ (by norm_num) (by norm_num)
    (by norm_num) (by norm_num) h).2 0 (by decide)).1⟩

/-- C7 (counterexample): for `monthlyAmount = 1`, `years = 1`,
`annualReturn = 100` the runs with `fees = 0` and `fees = 1` (both with
positive effective return) produce the same rounded `finalAmount = 21`, so
the claimed strict decrease under a fee increase fails: rounding ties. -/
theorem C7_counterexample :
    finalAmountOf ⟨1, 1, 100, 0, 0⟩ = some 21 ∧
    finalAmountOf ⟨1, 1, 100, 1, 0⟩ = some 21 ∧ ¬ ((21 : ℤ) < 21) := by
  refine ⟨?_, ?_, by decide⟩
  · have hm : (⟨1, 1, 100, 0, 0⟩ : SimulationParams).monthlyAmount = 1 := rfl
    have hr : monthlyReturn ⟨1, 1, 100, 0, 0⟩ = 1/12 := by
      norm_num [monthlyReturn, effectiveReturn]
    have he : entryAt 1 (1/12) 0 = ⟨1, 12, 9, 21, 9⟩ :=
      entryAt_eq 1 (1/12) 0 0 (186965800764925/8916100448256) 12 12 9 21 9
        (by norm_num [exactTotal]) (by norm_num [exactTotal, monthsLoop]) (by norm_num)
        (by norm_num) (by norm_num) (by norm_num) (by norm_num) (by norm_num)
        (by norm_num) (by norm_num) (by norm_num)
    rw [finalAmountOf,
      calculateInvestment_some ⟨1, 1, 100, 0, 0⟩ 0 (by norm_num [numYears]), hm, hr,
      Option.map_some', he]
  · have hm : (⟨1, 1, 100, 1, 0⟩ : SimulationParams).monthlyAmount = 1 := rfl
    have hr : monthlyReturn ⟨1, 1, 100, 1, 0⟩ = 33/400 := by
      norm_num [monthlyReturn, effectiveReturn]
    have he : entryAt 1 (33/400) 0 = ⟨1, 12, 9, 21, 9⟩ :=
      entryAt_eq 1 (33/400) 0 0
        (349802031869834108465858367953361/16777216000000000000000000000000) 12 12 9 21 9
        (by norm_num [exactTotal]) (by norm_num [exactTotal, monthsLoop]) (by norm_num)
        (by norm_num) (by norm_num) (by norm_num) (by norm_num) (by norm_num)
        (by norm_num) (by norm_num) (by norm_num)
    rw [finalAmountOf,
      calculateInvestment_some ⟨1, 1, 100, 1, 0⟩ 0 (by norm_num [numYears]), hm, hr,
      Option.map_some', he]

/-- C7 (amended): increasing `fees` with everything else fixed, both runs
having positive effective return, never increases `finalAmount` (the exact
running total strictly decreases, but the recorded rounded final amounts
can tie, so only `≤` holds for the reported value). -/
theorem C7_fees_antitone (p : SimulationParams) (g : ℚ) (res₁ res₂ : SimulationResult)
    (hm : 0 ≤ p.monthlyAmount) (hlt : p.fees < g)
    (hpos : g < p.annualReturn)
    (h₁ : calculateInvestment p = some res₁)
    (h₂ : calculateInvestment { p with fees := g } = some res₂) :
    res₂.finalAmount ≤ res₁.finalAmount := by
  obtain ⟨n₁, hn₁, e₁⟩ := calculateInvestment_spec p res₁ h₁
  obtain ⟨n₂, hn₂, e₂⟩ := calculateInvestment_spec { p with fees := g } res₂ h₂
  have hyears : ({ p with fees := g } : SimulationParams).years = p.years := rfl
  rw [hyears, hn₁] at hn₂
  have hnn : n₂ = n₁ := by omega
  subst hnn
  rw [e₁, e₂]
  simp only [entryAt]
  have hmEq : ({ p with fees := g } : SimulationParams).monthlyAmount = p.monthlyAmount := rfl
  rw [hmEq]
  have hrg : monthlyReturn { p with fees := g } = (p.annualReturn - g) / 1200 := by
    rw [monthlyReturn, effectiveReturn, div_div]
    norm_num
  have hrp : monthlyReturn p = (p.annualReturn - p.fees) / 1200 := by
    rw [monthlyReturn, effectiveReturn, div_div]
    norm_num
  have hneg : (-1 : ℚ) ≤ monthlyReturn { p with fees := g } := by
    rw [hrg]
    linarith
  have hrle : monthlyReturn { p with fees := g } ≤ monthlyReturn p := by
    rw [hrg, hrp]
    linarith
  exact jround_mono (exactTotal_mono_rate p.monthlyAmount hm hneg hrle (n₂ + 1))

/-- C7 (witness): concrete instance of the amended non-increase at
`monthlyAmount = 1`, `years = 1`, `annualReturn = 100`, fees 0 vs 1. -/
theorem C7_witness :
    calculateInvestment ⟨1, 1, 100, 0, 0⟩ = some ⟨21, 12, 9, [⟨1, 12, 9, 21, 9⟩]⟩ ∧
    calculateInvestment ⟨1, 1, 100, 1, 0⟩ = some ⟨21, 12, 9, [⟨1, 12, 9, 21, 9⟩]⟩ ∧
    (21 : ℤ) ≤ 21 := by
  have hm1 : (⟨1, 1, 100, 0, 0⟩ : SimulationParams).monthlyAmount = 1 := rfl
  have hr1 : monthlyReturn ⟨1, 1, 100, 0, 0⟩ = 1/12 := by
    norm_num [monthlyReturn, effectiveReturn]
  have he1 : entryAt 1 (1/12) 0 = ⟨1, 12, 9, 21, 9⟩ :=
    entryAt_eq 1 (1/12) 0 0 (186965800764925/8916100448256) 12 12 9 21 9
      (by norm_num [exactTotal]) (by norm_num [exactTotal, monthsLoop]) (by norm_num)
      (by norm_num) (by norm_num) (by norm_num) (by norm_num) (by norm_num)
      (by norm_num) (by norm_num) (by norm_num)
  have h1 : calculateInvestment ⟨1, 1, 100, 0, 0⟩ = some ⟨21, 12, 9, [⟨1, 12, 9, 21, 9⟩]⟩ := by
    rw [calculateInvestment_some ⟨1, 1, 100, 0, 0⟩ 0 (by norm_num [numYears]), hm1, hr1]
    rw [show List.range 1 = [0] from rfl]
    simp only [List.map_cons, List.map_nil, he1]
  have hm2 : (⟨1, 1, 100, 1, 0⟩ : SimulationParams).monthlyAmount = 1 := rfl
  have hr2 : monthlyReturn ⟨1, 1, 100, 1, 0⟩ = 33/400 := by
    norm_num [monthlyReturn, effectiveReturn]
  have he2 : entryAt 1 (33/400) 0 = ⟨1, 12, 9, 21, 9⟩ :=
    entryAt_eq 1 (33/400) 0 0
      (349802031869834108465858367953361/16777216000000000000000000000000) 12 12 9 21 9
      (by norm_num [exactTotal]) (by norm_num [exactTotal, monthsLoop]) (by norm_num)
      (by norm_num) (by norm_num) (by norm_num) (by norm_num) (by norm_num)
      (by norm_num) (by norm_num) (by norm_num)
  have h2 : calculateInvestment ⟨1, 1, 100, 1, 0⟩ = some ⟨21, 12, 9, [⟨1, 12, 9, 21, 9⟩]⟩ := by
    rw [calculateInvestment_some ⟨1, 1, 100, 1, 0⟩ 0 (by norm_num [numYears]), hm2, hr2]
    rw [show List.range 1 = [0] from rfl]
    simp only [List.map_cons, List.map_nil, he2]
  exact ⟨h1, h2, C7_fees_antitone ⟨1, 1, 100, 0, 0⟩ 1 _ _ (by norm_num) (by norm_num)
    (by norm_num) h1 h2⟩

theorem calculateRiskScenarios_mk (p : SimulationParams) (o b q : SimulationResult)
    (ho : calculateInvestment { p with annualReturn := p.annualReturn + 2 } = some o)
    (hb : calculateInvestment p = some b)
    (hq : calculateInvestment { p with annualReturn := max 0 (p.annualReturn - 2) } = some q) :
    calculateRiskScenarios p = some ⟨o, b, q⟩ := by
  unfold calculateRiskScenarios
  rw [ho, hb, hq]

theorem calculateRiskScenarios_spec (p : SimulationParams) (rs : RiskScenario)
    (h : calculateRiskScenarios p = some rs) :
    calculateInvestment { p with annualReturn := p.annualReturn + 2 } = some rs.optimistic ∧
    calculateInvestment p = some rs.base ∧
    calculateInvestment { p with annualReturn := max 0 (p.annualReturn - 2) } =
      some rs.pessimistic := by
  unfold calculateRiskScenarios at h
  rcases ho : calculateInvestment { p with annualReturn := p.annualReturn + 2 } with _ | o <;>
    rcases hb : calculateInvestment p with _ | b <;>
      rcases hq : calculateInvestment { p with annualReturn := max 0 (p.annualReturn - 2) }
        with _ | q <;>
        rw [ho, hb, hq] at h
  all_goals
    first
    | exact Option.noConfusion h
    | (have h2 : ({ optimistic := o, base := b, pessimistic := q } : RiskScenario) = rs :=
        Option.some.inj h
       rw [← h2]
       exact ⟨rfl, rfl, rfl⟩)

/-- C4 (amended): `calculateRiskScenarios` always builds the three
projections at rates `annualReturn + 2` (unclamped), `annualReturn`, and
`max 0 (annualReturn - 2)`; and under the in-scope parameter ranges
(`monthlyAmount ≥ 0`, `annualReturn ≥ 0`, `fees ≤ 1200`) the final
amounts are ordered `optimistic ≥ base ≥ pessimistic`.  (For negative base
returns the 0%-clamped pessimistic scenario can exceed the base one, so the
restriction `annualReturn ≥ 0` is necessary.) -/
theorem C4_scenario_ordering (p : SimulationParams) (rs : RiskScenario)
    (hm : 0 ≤ p.monthlyAmount) (ha : 0 ≤ p.annualReturn)
    (hf2 : p.fees ≤ 1200) (h : calculateRiskScenarios p = some rs) :
    (calculateInvestment { p with annualReturn := p.annualReturn + 2 } = some rs.optimistic ∧
     calculateInvestment p = some rs.base ∧
     calculateInvestment { p with annualReturn := max 0 (p.annualReturn - 2) } =
       some rs.pessimistic) ∧
    rs.pessimistic.finalAmount ≤ rs.base.finalAmount ∧
    rs.base.finalAmount ≤ rs.optimistic.finalAmount := by
  obtain ⟨ho, hb, hq⟩ := calculateRiskScenarios_spec p rs h
  have hrB : monthlyReturn p = (p.annualReturn - p.fees) / 1200 := by
    rw [monthlyReturn, effectiveReturn, div_div]
    norm_num
  have hrO : monthlyReturn { p with annualReturn := p.annualReturn + 2 } =
      (p.annualReturn + 2 - p.fees) / 1200 := by
    rw [monthlyReturn, effectiveReturn, div_div]
    norm_num
  have hrP : monthlyReturn { p with annualReturn := max 0 (p.annualReturn - 2) } =
      (max 0 (p.annualReturn - 2) - p.fees) / 1200 := by
    rw [monthlyReturn, effectiveReturn, div_div]
    norm_num
  have hmax0 : (0 : ℚ) ≤ max 0 (p.annualReturn - 2) := le_max_left _ _
  have hmaxle : max 0 (p.annualReturn - 2) ≤ p.annualReturn := max_le ha (by linarith)
  have hP1 : (-1 : ℚ) ≤ monthlyReturn { p with annualReturn := max 0 (p.annualReturn - 2) } := by
    rw [hrP]
    linarith
  have hPB : monthlyReturn { p with annualReturn := max 0 (p.annualReturn - 2) } ≤
      monthlyReturn p := by
    rw [hrP, hrB]
    linarith
  have hB1 : (-1 : ℚ) ≤ monthlyReturn p := le_trans hP1 hPB
  have hBO : monthlyReturn p ≤ monthlyReturn { p with annualReturn := p.annualReturn + 2 } := by
    rw [hrB, hrO]
    linarith
  obtain ⟨nB, hnB, eB⟩ := calculateInvestment_spec p rs.base hb
  obtain ⟨nO, hnO, eO⟩ := calculateInvestment_spec _ rs.optimistic ho
  obtain ⟨nP, hnP, eP⟩ := calculateInvestment_spec _ rs.pessimistic hq
  have hyO : ({ p with annualReturn := p.annualReturn + 2 } : SimulationParams).years
      = p.years := rfl
  have hyP : ({ p with annualReturn := max 0 (p.annualReturn - 2) } : SimulationParams).years
      = p.years := rfl
  rw [hyO, hnB] at hnO
  rw [hyP, hnB] at hnP
  have hOeq : nO = nB := by omega
  have hPeq : nP = nB := by omega
  rw [hOeq] at eO
  rw [hPeq] at eP
  refine ⟨⟨ho, hb, hq⟩, ?_, ?_⟩
  · rw [eP, eB]
    simp only [entryAt]
    have hmP : ({ p with annualReturn := max 0 (p.annualReturn - 2) } :
        SimulationParams).monthlyAmount = p.monthlyAmount := rfl
    rw [hmP]
    exact jround_mono (exactTotal_mono_rate p.monthlyAmount hm hP1 hPB (nB + 1))
  · rw [eO, eB]
    simp only [entryAt]
    have hmO : ({ p with annualReturn := p.annualReturn + 2 } :
        SimulationParams).monthlyAmount = p.monthlyAmount := rfl
    rw [hmO]
    exact jround_mono (exactTotal_mono_rate p.monthlyAmount hm hB1 hBO (nB + 1))

/-- C4 (counterexample): at `monthlyAmount = 10000`, `years = 1`,
`annualReturn = -100` the pessimistic scenario is clamped to a 0% return and
ends at 120000, strictly above the base scenario's 71280, so the claimed
ordering `base.finalAmount ≥ pessimistic.finalAmount` fails for negative
base returns. -/
theorem C4_counterexample :
    scenarioFinals ⟨10000, 1, -100, 0, 0⟩ = some (71995, 71280, 120000) ∧
    ¬ ((120000 : ℤ) ≤ 71280) := by
  constructor
  · have hmO : (⟨10000, 1, -98, 0, 0⟩ : SimulationParams).monthlyAmount = 10000 := rfl
    have hrO : monthlyReturn ⟨10000, 1, -98, 0, 0⟩ = -49/600 := by
      norm_num [monthlyReturn, effectiveReturn]
    have heO : entryAt 10000 (-49/600) 0 = ⟨1, 120000, -48005, 71995, -48005⟩ :=
      entryAt_eq 10000 (-49/600) 0 0
        (15671775868522285104061664823712201/217678233600000000000000000000)
        120000 120000 (-48005) 71995 (-48005)
        (by norm_num [exactTotal]) (by norm_num [exactTotal, monthsLoop]) (by norm_num)
        (by norm_num) (by norm_num) (by norm_num) (by norm_num) (by norm_num)
        (by norm_num) (by norm_num) (by norm_num)
    have hO : calculateInvestment ⟨10000, 1, -98, 0, 0⟩ =
        some ⟨71995, 120000, -48005, [⟨1, 120000, -48005, 71995, -48005⟩]⟩ := by
      rw [calculateInvestment_some ⟨10000, 1, -98, 0, 0⟩ 0 (by norm_num [numYears]), hmO, hrO]
      rw [show List.range 1 = [0] from rfl]
      simp only [List.map_cons, List.map_nil, heO]
    have hmB : (⟨10000, 1, -100, 0, 0⟩ : SimulationParams).monthlyAmount = 10000 := rfl
    have hrB : monthlyReturn ⟨10000, 1, -100, 0, 0⟩ = -1/12 := by
      norm_num [monthlyReturn, effectiveReturn]
    have heB : entryAt 10000 (-1/12) 0 = ⟨1, 120000, -48720, 71280, -48720⟩ :=
      entryAt_eq 10000 (-1/12) 0 0 (39721495491803125/557256278016)
        120000 120000 (-48720) 71280 (-48720)
        (by norm_num [exactTotal]) (by norm_num [exactTotal, monthsLoop]) (by norm_num)
        (by norm_num) (by norm_num) (by norm_num) (by norm_num) (by norm_num)
        (by norm_num) (by norm_num) (by norm_num)
    have hB : calculateInvestment ⟨10000, 1, -100, 0, 0⟩ =
        some ⟨71280, 120000, -48720, [⟨1, 120000, -48720, 71280, -48720⟩]⟩ := by
      rw [calculateInvestment_some ⟨10000, 1, -100, 0, 0⟩ 0 (by norm_num [numYears]), hmB, hrB]
      rw [show List.range 1 = [0] from rfl]
      simp only [List.map_cons, List.map_nil, heB]
    have hmP : (⟨10000, 1, 0, 0, 0⟩ : SimulationParams).monthlyAmount = 10000 := rfl
    have hrP : monthlyReturn ⟨10000, 1, 0, 0, 0⟩ = 0 := by
      norm_num [monthlyReturn, effectiveReturn]
    have heP : entryAt 10000 0 0 = ⟨1, 120000, 0, 120000, 0⟩ :=
      entryAt_eq 10000 0 0 0 120000 120000 120000 0 120000 0
        (by norm_num [exactTotal]) (by norm_num [exactTotal, monthsLoop]) (by norm_num)
        (by norm_num) (by norm_num) (by norm_num) (by norm_num) (by norm_num)
        (by norm_num) (by norm_num) (by norm_num)
    have hP : calculateInvestment ⟨10000, 1, 0, 0, 0⟩ =
        some ⟨120000, 120000, 0, [⟨1, 120000, 0, 120000, 0⟩]⟩ := by
      rw [calculateInvestment_some ⟨10000, 1, 0, 0, 0⟩ 0 (by norm_num [numYears]), hmP, hrP]
      rw [show List.range 1 = [0] from rfl]
      simp only [List.map_cons, List.map_nil, heP]
    have hrecO : ({ (⟨10000, 1, -100, 0, 0⟩ : SimulationParams) with
        annualReturn := (⟨10000, 1, -100, 0, 0⟩ : SimulationParams).annualReturn + 2 })
        = (⟨10000, 1, -98, 0, 0⟩ : SimulationParams) := by
      refine SimulationParams.ext rfl rfl ?_ rfl rfl
      norm_num
    have hrecP : ({ (⟨10000, 1, -100, 0, 0⟩ : SimulationParams) with
        annualReturn := max 0 ((⟨10000, 1, -100, 0, 0⟩ : SimulationParams).annualReturn - 2) })
        = (⟨10000, 1, 0, 0, 0⟩ : SimulationParams) := by
      refine SimulationParams.ext rfl rfl ?_ rfl rfl
      rw [show (⟨10000, 1, -100, 0, 0⟩ : SimulationParams).annualReturn = -100 from rfl]
      rw [max_eq_left (by norm_num : (-100 : ℚ) - 2 ≤ 0)]
    have hrs := calculateRiskScenarios_mk ⟨10000, 1, -100, 0, 0⟩ _ _ _
      (by rw [hrecO]; exact hO) hB (by rw [hrecP]; exact hP)
    rw [scenarioFinals, hrs, Option.map_some']
  · decide

/-- C4 (witness): concrete instance of the amended scenario ordering at
`monthlyAmount = 100`, `years = 1`, `annualReturn = 2`. -/
theorem C4_witness :
    calculateRiskScenarios ⟨100, 1, 2, 0, 0⟩ =
      some ⟨⟨1226, 1200, 26, [⟨1, 1200, 26, 1226, 26⟩]⟩,
            ⟨1213, 1200, 13, [⟨1, 1200, 13, 1213, 13⟩]⟩,
            ⟨1200, 1200, 0, [⟨1, 1200, 0, 1200, 0⟩]⟩⟩ ∧
    ((1200 : ℤ) ≤ 1213 ∧ (1213 : ℤ) ≤ 1226) := by
  have hmO : (⟨100, 1, 4, 0, 0⟩ : SimulationParams).monthlyAmount = 100 := rfl
  have hrO : monthlyReturn ⟨100, 1, 4, 0, 0⟩ = 1/300 := by
    norm_num [monthlyReturn, effectiveReturn]
  have heO : entryAt 100 (1/300) 0 = ⟨1, 1200, 26, 1226, 26⟩ :=
    entryAt_eq 100 (1/300) 0 0
      (6517169619561613297209229023901/5314410000000000000000000000) 1200 1200 26 1226 26
      (by norm_num [exactTotal]) (by norm_num [exactTotal, monthsLoop]) (by norm_num)
      (by norm_num) (by norm_num) (by norm_num) (by norm_num) (by norm_num)
      (by norm_num) (by norm_num) (by norm_num)
  have hO : calculateInvestment ⟨100, 1, 4, 0, 0⟩ =
      some ⟨1226, 1200, 26, [⟨1, 1200, 26, 1226, 26⟩]⟩ := by
    rw [calculateInvestment_some ⟨100, 1, 4, 0, 0⟩ 0 (by norm_num [numYears]), hmO, hrO]
    rw [show List.range 1 = [0] from rfl]
    simp only [List.map_cons, List.map_nil, heO]
  have hmB : (⟨100, 1, 2, 0, 0⟩ : SimulationParams).monthlyAmount = 100 := rfl
  have hrB : monthlyReturn ⟨100, 1, 2, 0, 0⟩ = 1/600 := by
    norm_num [monthlyReturn, effectiveReturn]
  have heB : entryAt 100 (1/600) 0 = ⟨1, 1200, 13, 1213, 13⟩ :=
    entryAt_eq 100 (1/600) 0 0
      (26406106295531015099465845804087801/21767823360000000000000000000000) 1200 1200 13 1213 13
      (by norm_num [exactTotal]) (by norm_num [exactTotal, monthsLoop]) (by norm_num)
      (by norm_num) (by norm_num) (by norm_num) (by norm_num) (by norm_num)
      (by norm_num) (by norm_num) (by norm_num)
  have hB : calculateInvestment ⟨100, 1, 2, 0, 0⟩ =
      some ⟨1213, 1200, 13, [⟨1, 1200, 13, 1213, 13⟩]⟩ := by
    rw [calculateInvestment_some ⟨100, 1, 2, 0, 0⟩ 0 (by norm_num [numYears]), hmB, hrB]
    rw [show List.range 1 = [0] from rfl]
    simp only [List.map_cons, List.map_nil, heB]
  have hmP : (⟨100, 1, 0, 0, 0⟩ : SimulationParams).monthlyAmount = 100 := rfl
  have hrP : monthlyReturn ⟨100, 1, 0, 0, 0⟩ = 0 := by
    norm_num [monthlyReturn, effectiveReturn]
  have heP : entryAt 100 0 0 = ⟨1, 1200, 0, 1200, 0⟩ :=
    entryAt_eq 100 0 0 0 1200 1200 1200 0 1200 0
      (by norm_num [exactTotal]) (by norm_num [exactTotal, monthsLoop]) (by norm_num)
      (by norm_num) (by norm_num) (by norm_num) (by norm_num) (by norm_num)
      (by norm_num) (by norm_num) (by norm_num)
  have hP : calculateInvestment ⟨100, 1, 0, 0, 0⟩ =
      some ⟨1200, 1200, 0, [⟨1, 1200, 0, 1200, 0⟩]⟩ := by
    rw [calculateInvestment_some ⟨100, 1, 0, 0, 0⟩ 0 (by norm_num [numYears]), hmP, hrP]
    rw [show List.range 1 = [0] from rfl]
    simp only [List.map_cons, List.map_nil, heP]
  have hrecO : ({ (⟨100, 1, 2, 0, 0⟩ : SimulationParams) with
      annualReturn := (⟨100, 1, 2, 0, 0⟩ : SimulationParams).annualReturn + 2 })
      = (⟨100, 1, 4, 0, 0⟩ : SimulationParams) := by
    refine SimulationParams.ext rfl rfl ?_ rfl rfl
    norm_num
  have hrecP : ({ (⟨100, 1, 2, 0, 0⟩ : SimulationParams) with
      annualReturn := max 0 ((⟨100, 1, 2, 0, 0⟩ : SimulationParams).annualReturn - 2) })
      = (⟨100, 1, 0, 0, 0⟩ : SimulationParams) := by
    refine SimulationParams.ext rfl rfl ?_ rfl rfl
    rw [show (⟨100, 1, 2, 0, 0⟩ : SimulationParams).annualReturn = 2 from rfl]
    rw [max_eq_left (by norm_num : (2 : ℚ) - 2 ≤ 0)]
  have hrs := calculateRiskScenarios_mk ⟨100, 1, 2, 0, 0⟩ _ _ _
    (by rw [hrecO]; exact hO) hB (by rw [hrecP]; exact hP)
  exact ⟨hrs, (C4_scenario_ordering ⟨100, 1, 2, 0, 0⟩ _ (by norm_num) (by norm_num)
    (by norm_num) hrs).2⟩

end Munus
